import Mathlib

/-!
Shallow embedding of the calculation core of `dose_calculator.py`
(veterinary dose calculator).

Python floats are embedded as rationals (`ℚ`), so every algebraic identity
is exact.  A Python function that may `raise ValueError(msg)` is embedded as
a function into `Except String _`, the error message carried verbatim.
Python's substring test `needle in hay` on lowered strings is embedded by
`subOf` over lists of characters, with `lowerChars` playing the role of
`str.lower()`.
-/

/-- Characters of a string, lowercased: embeds Python's `s.lower()`
(the unit markers checked by the program are ASCII, where `Char.toLower`
agrees with Python's `str.lower`). -/
def lowerChars (s : String) : List Char :=
  s.data.map Char.toLower

/-- Substring test on character lists: embeds Python's `needle in hay`
for strings.  `subOf n h` is `true` iff `n` occurs contiguously in `h`
(the empty needle occurs in every haystack, as in Python). -/
def subOf : List Char → List Char → Bool
  | needle, [] => needle.isEmpty
  | needle, c :: t => needle.isPrefixOf (c :: t) || subOf needle t

/-- Embeds `perform_dose_per_weight_calculation` (dose_calculator.py,
lines 26-47).  Returns `(total_mg_needed, quantity_to_administer,
admin_unit_str)` on success; raising `ValueError` is `Except.error`. -/
def perform_dose_per_weight_calculation
    (weight_kg dose_mg_per_kg concentration_value : ℚ)
    (concentration_unit_str : String) : Except String (ℚ × Option ℚ × String) :=
  if concentration_value = 0 then
    Except.error ("Concentration value cannot be zero.")
  else
    let total_mg_needed := weight_kg * dose_mg_per_kg
    let unit_lower := lowerChars concentration_unit_str
    if subOf ("/ml".data) unit_lower then
      Except.ok (total_mg_needed, some (total_mg_needed / concentration_value), "mL")
    else if subOf ("/tablet".data) unit_lower || subOf ("mg/tab".data) unit_lower then
      Except.ok (total_mg_needed, some (total_mg_needed / concentration_value), "tablets")
    else
      Except.ok (total_mg_needed, none, "unrecognized_unit")

/-- Embeds `perform_infusion_preparation_calculation` (dose_calculator.py,
lines 49-74).  Returns `(drug_volume_ml, diluent_volume_ml,
final_concentration_mg_ml)` on success. -/
def perform_infusion_preparation_calculation
    (total_dose_mg drug_concentration_value_mg_ml total_final_infusion_volume_ml : ℚ) :
    Except String (ℚ × ℚ × ℚ) :=
  if drug_concentration_value_mg_ml = 0 then
    Except.error ("Drug concentration cannot be zero.")
  else if total_final_infusion_volume_ml = 0 then
    Except.error ("Total final infusion volume cannot be zero.")
  else
    let volume_of_drug_to_draw_mL := total_dose_mg / drug_concentration_value_mg_ml
    if volume_of_drug_to_draw_mL > total_final_infusion_volume_ml then
      Except.error ("Volume of drug to draw exceeds the total final infusion volume.")
    else if volume_of_drug_to_draw_mL < 0 then
      Except.error ("Calculated volume of drug to draw is negative.")
    else
      let volume_of_diluent_mL := total_final_infusion_volume_ml - volume_of_drug_to_draw_mL
      let final_infusion_concentration_mg_per_mL :=
        total_dose_mg / total_final_infusion_volume_ml
      Except.ok (volume_of_drug_to_draw_mL, volume_of_diluent_mL,
        final_infusion_concentration_mg_per_mL)

/-- Embeds `perform_rate_duration_calculation` (dose_calculator.py,
lines 76-100).  Returns `(calculated_rate_ml_hr, calculated_duration_hr,
drug_delivery_rate_mg_hr)` on success. -/
def perform_rate_duration_calculation
    (total_volume_ml total_drug_mg_in_infusion value : ℚ) (mode : String) :
    Except String (ℚ × ℚ × ℚ) :=
  if mode = "rate_from_duration" then
    let duration_hours := value
    if duration_hours = 0 then
      Except.error ("Duration cannot be zero.")
    else
      let infusion_rate_mL_per_hour := total_volume_ml / duration_hours
      let drug_delivery_rate_mg_per_hour := total_drug_mg_in_infusion / duration_hours
      Except.ok (infusion_rate_mL_per_hour, duration_hours, drug_delivery_rate_mg_per_hour)
  else if mode = "duration_from_rate" then
    let infusion_rate_mL_per_hour := value
    if infusion_rate_mL_per_hour = 0 then
      Except.error ("Infusion rate cannot be zero.")
    else if total_volume_ml = 0 then
      Except.error ("Total volume cannot be zero for drug concentration calculation in this mode.")
    else
      let duration_hours := total_volume_ml / infusion_rate_mL_per_hour
      let drug_concentration_mg_per_mL := total_drug_mg_in_infusion / total_volume_ml
      let drug_delivery_rate_mg_per_hour := infusion_rate_mL_per_hour * drug_concentration_mg_per_mL
      Except.ok (infusion_rate_mL_per_hour, duration_hours, drug_delivery_rate_mg_per_hour)
  else
    Except.error ("Invalid mode: " ++ mode)

/-- A JSON value, as produced by Python's `json.load`:  the persisted
medication store is read as arbitrary JSON, not validated further by
`load_medications`. -/
inductive Json where
  | null : Json
  | bool : Bool → Json
  | num : ℚ → Json
  | str : String → Json
  | arr : List Json → Json
  | obj : List (String × Json) → Json

/-- State of the persisted store as observed by `load_medications`
(dose_calculator.py, lines 103-122): the file may be absent
(`os.path.exists` is false), opening/reading it may raise `IOError`,
`json.load` may raise `JSONDecodeError`, or `json.load` may succeed and
produce some JSON value.  These four outcomes abstract the file system and
the external `json` module; everything else in `load_medications` is
embedded exactly. -/
inductive FileState where
  | absent : FileState
  | readFailure : FileState
  | decodeFailure : FileState
  | parsed : Json → FileState

/-- Embeds `load_medications` (dose_calculator.py, lines 103-122): returns
the empty list when the file is absent or either exception is raised, and
otherwise returns whatever `json.load` produced, unchecked. -/
def load_medications : FileState → Json
  | FileState.absent => Json.arr []
  | FileState.readFailure => Json.arr []
  | FileState.decodeFailure => Json.arr []
  | FileState.parsed v => v

/-- Claim C1: for positive weight, dose and concentration, and any unit whose
lowercase form contains "/ml", the dose-per-weight calculation succeeds with
total `weight * dose`, quantity `weight * dose / concentration`, and the
label "mL"; the "/ml" branch takes priority over the tablet branch, so this
holds even when a tablet marker is also present. -/
theorem claim_C1 (weight_kg dose_mg_per_kg concentration_value : ℚ) (u : String)
    (hw : 0 < weight_kg) (hd : 0 < dose_mg_per_kg) (hc : 0 < concentration_value)
    (hml : subOf ("/ml".data) (lowerChars u) = true) :
    perform_dose_per_weight_calculation weight_kg dose_mg_per_kg concentration_value u
      = Except.ok (weight_kg * dose_mg_per_kg,
          some (weight_kg * dose_mg_per_kg / concentration_value), "mL") := by
  simp [perform_dose_per_weight_calculation, hc.ne', hml]

/-- Witness for C1 at the concrete input (10 kg, 2 mg/kg, 5 mg/mL,
unit "mg/mL per tablet", which contains both "/ml" and "/tablet"). -/
theorem claim_C1_witness :
    perform_dose_per_weight_calculation 10 2 5 "mg/mL per tablet"
      = Except.ok (10 * 2, some (10 * 2 / 5), "mL") :=
  claim_C1 10 2 5 "mg/mL per tablet" (by norm_num) (by norm_num) (by norm_num) (by decide)

/-- Claim C2: with `concentration_value = 0` the dose-per-weight calculation
fails with the zero-concentration error for every weight, dose and unit
string — the check precedes unit classification, so the error is the same
for liquid, solid and unrecognized units. -/
theorem claim_C2 (weight_kg dose_mg_per_kg : ℚ) (u : String) :
    perform_dose_per_weight_calculation weight_kg dose_mg_per_kg 0 u
      = Except.error ("Concentration value cannot be zero.") := by
  simp [perform_dose_per_weight_calculation]

/-- Counterexample to C3 as stated: with the unrecognized unit "mg/capsule"
but `concentration_value = 0`, the calculation raises the zero-concentration
error instead of returning the unrecognized-unit triple — the zero check
runs before unit classification. -/
theorem claim_C3_counterexample :
    perform_dose_per_weight_calculation 1 1 0 "mg/capsule"
        = Except.error ("Concentration value cannot be zero.")
      ∧ perform_dose_per_weight_calculation 1 1 0 "mg/capsule"
        ≠ Except.ok (1 * 1, none, "unrecognized_unit") := by
  constructor
  · simp [perform_dose_per_weight_calculation]
  · simp [perform_dose_per_weight_calculation]

/-- Claim C3 (amended): for every input with `concentration_value ≠ 0` whose
unit contains neither "/ml" nor "/tablet" nor "mg/tab" (case-insensitively),
the calculation does not raise and returns quantity `none` with the label
"unrecognized_unit"; with `concentration_value = 0` it instead raises the
zero-concentration error. -/
theorem claim_C3_amended (weight_kg dose_mg_per_kg concentration_value : ℚ) (u : String)
    (hc : concentration_value ≠ 0)
    (h1 : subOf ("/ml".data) (lowerChars u) = false)
    (h2 : subOf ("/tablet".data) (lowerChars u) = false)
    (h3 : subOf ("mg/tab".data) (lowerChars u) = false) :
    perform_dose_per_weight_calculation weight_kg dose_mg_per_kg concentration_value u
      = Except.ok (weight_kg * dose_mg_per_kg, none, "unrecognized_unit") := by
  simp [perform_dose_per_weight_calculation, hc, h1, h2, h3]

/-- Witness for the amended C3 at the concrete input
(10 kg, 1 mg/kg, concentration 10, unit "mg/capsule"). -/
theorem claim_C3_witness :
    perform_dose_per_weight_calculation 10 1 10 "mg/capsule"
      = Except.ok (10 * 1, none, "unrecognized_unit") :=
  claim_C3_amended 10 1 10 "mg/capsule" (by norm_num) (by decide) (by decide) (by decide)

/-- Claim C4: once the zero-concentration and zero-volume checks have passed,
the infusion preparation fails with the exceeds-volume error exactly when
`total_dose_mg / drug_concentration > total_final_volume`; an error means no
result tuple is produced. -/
theorem claim_C4 (total_dose_mg conc vol : ℚ) (hc : conc ≠ 0) (hv : vol ≠ 0) :
    (perform_infusion_preparation_calculation total_dose_mg conc vol
        = Except.error ("Volume of drug to draw exceeds the total final infusion volume."))
      ↔ total_dose_mg / conc > vol := by
  by_cases hgt : total_dose_mg / conc > vol
  · simp [perform_infusion_preparation_calculation, hc, hv, hgt]
  · by_cases hneg : total_dose_mg / conc < 0
    · simp [perform_infusion_preparation_calculation, hc, hv, hgt, hneg]
    · simp [perform_infusion_preparation_calculation, hc, hv, hgt, hneg]

/-- Witness for C4 at the spec's example (dose 100 mg, concentration
10 mg/mL, final volume 5 mL: the 10 mL drug volume exceeds 5 mL). -/
theorem claim_C4_witness :
    perform_infusion_preparation_calculation 100 10 5
      = Except.error ("Volume of drug to draw exceeds the total final infusion volume.") :=
  (claim_C4 100 10 5 (by norm_num) (by norm_num)).mpr (by norm_num)

/-- Claim C5: whenever the infusion preparation succeeds, the returned drug
volume plus the returned diluent volume equals the input final volume,
exactly, over the embedded rational arithmetic. -/
theorem claim_C5 (total_dose_mg conc vol : ℚ) (r : ℚ × ℚ × ℚ)
    (h : perform_infusion_preparation_calculation total_dose_mg conc vol = Except.ok r) :
    r.1 + r.2.1 = vol := by
  by_cases hc : conc = 0
  · simp [perform_infusion_preparation_calculation, hc] at h
  by_cases hv : vol = 0
  · simp [perform_infusion_preparation_calculation, hc, hv] at h
  by_cases hgt : total_dose_mg / conc > vol
  · simp [perform_infusion_preparation_calculation, hc, hv, hgt] at h
  by_cases hneg : total_dose_mg / conc < 0
  · simp [perform_infusion_preparation_calculation, hc, hv, hgt, hneg] at h
  · simp [perform_infusion_preparation_calculation, hc, hv, hgt, hneg] at h
    subst h
    simp

/-- Witness for C5 at the spec's worked example (100 mg, 20 mg/mL, 500 mL
final volume yields 5 mL drug and 495 mL diluent, summing to 500). -/
theorem claim_C5_witness : (5 : ℚ) + 495 = 500 :=
  claim_C5 100 20 500 (5, 495, 1 / 5)
    (by norm_num [perform_infusion_preparation_calculation])

/-- Claim C8: whenever the infusion preparation succeeds with a positive
total dose, all three returned values — drug volume, diluent volume and
final concentration — are non-negative. -/
theorem claim_C8 (total_dose_mg conc vol : ℚ) (hdose : 0 < total_dose_mg) (r : ℚ × ℚ × ℚ)
    (h : perform_infusion_preparation_calculation total_dose_mg conc vol = Except.ok r) :
    0 ≤ r.1 ∧ 0 ≤ r.2.1 ∧ 0 ≤ r.2.2 := by
  by_cases hc : conc = 0
  · simp [perform_infusion_preparation_calculation, hc] at h
  by_cases hv : vol = 0
  · simp [perform_infusion_preparation_calculation, hc, hv] at h
  by_cases hgt : total_dose_mg / conc > vol
  · simp [perform_infusion_preparation_calculation, hc, hv, hgt] at h
  by_cases hneg : total_dose_mg / conc < 0
  · simp [perform_infusion_preparation_calculation, hc, hv, hgt, hneg] at h
  · simp [perform_infusion_preparation_calculation, hc, hv, hgt, hneg] at h
    subst h
    have hdrug : 0 ≤ total_dose_mg / conc := not_lt.mp hneg
    have hle : total_dose_mg / conc ≤ vol := not_lt.mp hgt
    have hvpos : 0 < vol := lt_of_le_of_ne (hdrug.trans hle) (Ne.symm hv)
    exact ⟨hdrug, sub_nonneg.mpr hle, div_nonneg hdose.le hvpos.le⟩

/-- Witness for C8 at the concrete input (100 mg, 10 mg/mL, 10 mL final
volume: drug volume 10, diluent 0, final concentration 10). -/
theorem claim_C8_witness : (0 : ℚ) ≤ 10 ∧ (0 : ℚ) ≤ 0 ∧ (0 : ℚ) ≤ 10 :=
  claim_C8 100 10 10 (by norm_num) (10, 0, 10)
    (by norm_num [perform_infusion_preparation_calculation])

/-- Claim C10: when the total dose and the drug concentration have opposite
signs (so the computed drug volume is negative), and the final volume passes
the earlier checks (nonzero, and not exceeded by the drug volume), the
infusion preparation fails with the negative-volume error — a fourth failure
mode beyond the spec's taxonomy. -/
theorem claim_C10 (total_dose_mg conc vol : ℚ)
    (hsign : (0 < total_dose_mg ∧ conc < 0) ∨ (total_dose_mg < 0 ∧ 0 < conc))
    (hv : vol ≠ 0) (hle : ¬ (total_dose_mg / conc > vol)) :
    perform_infusion_preparation_calculation total_dose_mg conc vol
      = Except.error ("Calculated volume of drug to draw is negative.") := by
  have hc : conc ≠ 0 := by
    rcases hsign with ⟨_, h⟩ | ⟨_, h⟩
    · exact h.ne
    · exact h.ne'
  have hneg : total_dose_mg / conc < 0 := by
    rcases hsign with ⟨hdp, hcn⟩ | ⟨hdn, hcp⟩
    · exact div_neg_of_pos_of_neg hdp hcn
    · exact div_neg_of_neg_of_pos hdn hcp
  simp [perform_infusion_preparation_calculation, hc, hv, hle, hneg]

/-- Witness for C10 at the concrete input (dose 1 mg, concentration
-1 mg/mL, final volume 5 mL: the computed drug volume is -1 mL). -/
theorem claim_C10_witness :
    perform_infusion_preparation_calculation 1 (-1) 5
      = Except.error ("Calculated volume of drug to draw is negative.") :=
  claim_C10 1 (-1) 5 (Or.inl ⟨by norm_num, by norm_num⟩) (by norm_num) (by norm_num)

/-- Evaluation lemma: the `rate_from_duration` branch with nonzero duration. -/
theorem rate_from_duration_eq (vol mg dur : ℚ) (h : dur ≠ 0) :
    perform_rate_duration_calculation vol mg dur "rate_from_duration"
      = Except.ok (vol / dur, dur, mg / dur) := by
  simp [perform_rate_duration_calculation, h]

/-- Evaluation lemma: the `duration_from_rate` branch with nonzero rate and
nonzero total volume. -/
theorem duration_from_rate_eq (vol mg rate : ℚ) (hr : rate ≠ 0) (hv : vol ≠ 0) :
    perform_rate_duration_calculation vol mg rate "duration_from_rate"
      = Except.ok (rate, vol / rate, rate * (mg / vol)) := by
  simp [perform_rate_duration_calculation, hr, hv]

/-- Claim C6: for positive volume, drug mass, duration and rate, the two
modes are inverse: `rate_from_duration` at duration `dur` yields the rate
`vol / dur`, and feeding that rate to `duration_from_rate` returns the
original duration `dur`; symmetrically, `duration_from_rate` at rate `rate`
yields the duration `vol / rate`, and feeding that duration to
`rate_from_duration` returns the original rate `rate`. -/
theorem claim_C6 (vol mg dur rate : ℚ)
    (hv : 0 < vol) (hm : 0 < mg) (hdur : 0 < dur) (hrate : 0 < rate) :
    (perform_rate_duration_calculation vol mg dur "rate_from_duration"
        = Except.ok (vol / dur, dur, mg / dur)
      ∧ perform_rate_duration_calculation vol mg (vol / dur) "duration_from_rate"
        = Except.ok (vol / dur, dur, (vol / dur) * (mg / vol)))
    ∧ (perform_rate_duration_calculation vol mg rate "duration_from_rate"
        = Except.ok (rate, vol / rate, rate * (mg / vol))
      ∧ perform_rate_duration_calculation vol mg (vol / rate) "rate_from_duration"
        = Except.ok (rate, vol / rate, mg / (vol / rate))) := by
  have hv0 : vol ≠ 0 := hv.ne'
  have hd0 : dur ≠ 0 := hdur.ne'
  have hr0 : rate ≠ 0 := hrate.ne'
  have hvd : vol / dur ≠ 0 := div_ne_zero hv0 hd0
  have hvr : vol / rate ≠ 0 := div_ne_zero hv0 hr0
  have hback1 : vol / (vol / dur) = dur := by
    field_simp
  have hback2 : vol / (vol / rate) = rate := by
    field_simp
  refine ⟨⟨rate_from_duration_eq vol mg dur hd0, ?_⟩,
    duration_from_rate_eq vol mg rate hr0 hv0, ?_⟩
  · rw [duration_from_rate_eq vol mg (vol / dur) hvd hv0, hback1]
  · rw [rate_from_duration_eq vol mg (vol / rate) hvr, hback2]

/-- Witness for C6 at the spec's example (500 mL, 100 mg, duration 5 h,
rate 100 mL/h). -/
theorem claim_C6_witness :
    (perform_rate_duration_calculation 500 100 5 "rate_from_duration"
        = Except.ok (500 / 5, 5, 100 / 5)
      ∧ perform_rate_duration_calculation 500 100 (500 / 5) "duration_from_rate"
        = Except.ok (500 / 5, 5, (500 / 5) * (100 / 500)))
    ∧ (perform_rate_duration_calculation 500 100 100 "duration_from_rate"
        = Except.ok (100, 500 / 100, 100 * (100 / 500))
      ∧ perform_rate_duration_calculation 500 100 (500 / 100) "rate_from_duration"
        = Except.ok (100, 500 / 100, 100 / (500 / 100))) :=
  claim_C6 500 100 5 100 (by norm_num) (by norm_num) (by norm_num) (by norm_num)

/-- Claim C7: in mode `duration_from_rate` with nonzero rate and zero total
volume, the calculation fails with the specific drug-concentration message
(the zero-rate check having run first, its hypothesis is `rate ≠ 0`); and
mode `rate_from_duration` can never fail with that message, whatever its
inputs. -/
theorem claim_C7 (mg rate : ℚ) (hr : rate ≠ 0) :
    perform_rate_duration_calculation 0 mg rate "duration_from_rate"
        = Except.error
            ("Total volume cannot be zero for drug concentration calculation in this mode.")
      ∧ ∀ (vol mg2 v : ℚ),
          perform_rate_duration_calculation vol mg2 v "rate_from_duration"
            ≠ Except.error
                ("Total volume cannot be zero for drug concentration calculation in this mode.") := by
  constructor
  · simp [perform_rate_duration_calculation, hr]
  · intro vol mg2 v
    by_cases hv : v = 0
    · simp [perform_rate_duration_calculation, hv]
    · simp [perform_rate_duration_calculation, hv]

/-- Witness for C7 at the concrete input (0 mL total volume, 100 mg drug,
rate 50 mL/h). -/
theorem claim_C7_witness :
    perform_rate_duration_calculation 0 100 50 "duration_from_rate"
      = Except.error
          ("Total volume cannot be zero for drug concentration calculation in this mode.") :=
  (claim_C7 100 50 (by norm_num)).1

/-- Claim C9 behavior: `load_medications` never raises and returns the empty
list on an absent file, a read failure or a JSON decode failure — but when
the file holds valid JSON that is not an array (here the scalar 5), the
parsed value is returned unchanged, so the result is not a sequence of
records, contradicting the function's own documented contract. -/
theorem claim_C9_behavior :
    load_medications FileState.absent = Json.arr []
      ∧ load_medications FileState.readFailure = Json.arr []
      ∧ load_medications FileState.decodeFailure = Json.arr []
      ∧ load_medications (FileState.parsed (Json.num 5)) = Json.num 5
      ∧ ∀ (xs : List Json), load_medications (FileState.parsed (Json.num 5)) ≠ Json.arr xs := by
  refine ⟨rfl, rfl, rfl, rfl, ?_⟩
  intro xs h
  exact Json.noConfusion h
